import Mathlib

/-!
Shallow embedding of the AvatarMeet backend (src/main.py together with
src/schemas.py).

Python strings are Lean `String`s; `str.upper()` / `str.lower()` are embedded
as `pyUpper` / `pyLower` (character-wise ASCII case mapping, which agrees with
Python on all texts handled here).  The MongoDB "room" collection is modelled
as a `List Room` inside an `Option` (`none` stands for `db is None`).
Exceptions raised by the store are modelled by explicit outcome parameters:
`InsertOutcome` for `create_document`, `FindOutcome` for a `find_one` call,
and a per-attempt schedule `Nat → Bool` for the lookups inside the
code-generation loop of `create_room`.  Python's `random.choices` is modelled
by an explicit stream of character picks `Nat → Fin 6 → Fin 36`.
-/

deriving instance DecidableEq for Except

namespace AvatarMeet

/-- src/schemas.py, `class Room`: code, scene (default "classroom"),
is_active (default True), max_participants (default 16, ge=1, le=64). -/
structure Room where
  code : String
  scene : String
  is_active : Bool
  max_participants : Int
deriving Repr, DecidableEq

/-- Pydantic validation of a `Room(...)` construction as performed at
src/main.py line 133: the `Field(16, ge=1, le=64)` bound on
`max_participants` (src/schemas.py line 14) raises a `ValidationError` when
violated; `is_active` keeps its default `True`. -/
def Room.make (code scene : String) (maxP : Int) : Except String Room :=
  if maxP < 1 ∨ 64 < maxP then
    Except.error "ValidationError: max_participants"
  else
    Except.ok ⟨code, scene, true, maxP⟩

/-- src/schemas.py, `class Participant`. -/
structure Participant where
  room_code : String
  name : Option String
  is_muted : Bool
  avatar_url : Option String
deriving Repr, DecidableEq

/-- src/main.py lines 64-66, `CreateRoomRequest`: both fields optional with
defaults; no range constraint is placed on `max_participants` here. -/
structure CreateRoomRequest where
  scene : Option String := some "classroom"
  max_participants : Option Int := some 16
deriving Repr, DecidableEq

/-- src/main.py lines 69-71. -/
structure CreateRoomResponse where
  code : String
  scene : String
deriving Repr, DecidableEq

/-- src/main.py lines 74-76. -/
structure JoinRoomRequest where
  code : String
  name : Option String := none
deriving Repr, DecidableEq

/-- src/main.py lines 79-81. -/
structure JoinRoomResponse where
  code : String
  scene : String
deriving Repr, DecidableEq

/-- A FastAPI `HTTPException(status_code, detail)`. -/
structure HTTPError where
  status : Nat
  detail : String
deriving Repr, DecidableEq

/-- Python `s.upper()` (character-wise ASCII upper-casing). -/
def pyUpper (s : String) : String := ⟨s.data.map Char.toUpper⟩

/-- Python `s.lower()` (character-wise ASCII lower-casing). -/
def pyLower (s : String) : String := ⟨s.data.map Char.toLower⟩

/-- Python's substring test `needle in hay`. -/
def strContains (hay needle : String) : Bool :=
  decide (needle.data <:+: hay.data)

/-- src/main.py line 94: the error-text classification used by
`_save_room_persistently`, verbatim:
`"Quota" in str(e) or "Forbidden" in str(e) or "quota" in str(e).lower()`. -/
def isQuotaErrorMsg (msg : String) : Bool :=
  strContains msg "Quota" || strContains msg "Forbidden" ||
    strContains (pyLower msg) "quota"

/-- The classifier as the spec words it: "matching \x22quota\x22 or
\x22forbidden\x22 substrings, case-insensitive, in the error text".  Stated
for comparison with `isQuotaErrorMsg`, the classifier the code implements. -/
def spec_quota_classifier (msg : String) : Bool :=
  strContains (pyLower msg) "quota" || strContains (pyLower msg) "forbidden"

/-- src/main.py line 24: `FALLBACK_ROOMS`, a dict from code to room record. -/
def FallbackMap : Type := List (String × Room)

instance : DecidableEq FallbackMap := inferInstanceAs (DecidableEq (List (String × Room)))

/-- Python dict lookup `FALLBACK_ROOMS.get(code)`. -/
def fbGet : FallbackMap → String → Option Room
  | [], _ => none
  | (k, v) :: rest, key => if k = key then some v else fbGet rest key

/-- Python dict assignment `FALLBACK_ROOMS[room.code] = room.model_dump()`
(src/main.py line 95): overwrite semantics. -/
def fbInsert (fb : FallbackMap) (k : String) (v : Room) : FallbackMap :=
  (k, v) :: (fb : List (String × Room)).filter (fun p => p.1 != k)

/-- src/main.py line 59: `response["fallback_active"] = len(FALLBACK_ROOMS) > 0`,
the fallback indicator of the `/test` endpoint (`test_database`). -/
def fallback_active (fb : FallbackMap) : Bool :=
  decide (0 < (fb : List (String × Room)).length)

/-- The persistent store's "room" collection: `none` models `db is None`. -/
def DbStore : Type := Option (List Room)

instance : DecidableEq DbStore := inferInstanceAs (DecidableEq (Option (List Room)))

/-- `db["room"].find_one({"code": code})`: first document whose `code` field
matches. -/
def dbFindOne : List Room → String → Option Room
  | [], _ => none
  | r :: rest, code => if r.code = code then some r else dbFindOne rest code

/-- src/main.py line 85: the alphabet `string.ascii_uppercase + string.digits`
that `random.choices` draws from. -/
def codeChars : List Char :=
  ['A', 'B', 'C', 'D', 'E', 'F', 'G', 'H', 'I', 'J', 'K', 'L', 'M',
   'N', 'O', 'P', 'Q', 'R', 'S', 'T', 'U', 'V', 'W', 'X', 'Y', 'Z',
   '0', '1', '2', '3', '4', '5', '6', '7', '8', '9']

theorem codeChars_length : codeChars.length = 36 := rfl

/-- src/main.py lines 84-85, `_generate_code` at its default length 6 (the
only length it is called with): the six random draws are the explicit
argument `picks`. -/
def generate_code (picks : Fin 6 → Fin 36) : String :=
  ⟨(List.finRange 6).map
    (fun i => codeChars.get (Fin.cast codeChars_length.symm (picks i)))⟩

/-- Outcome of one `create_document` call (src/main.py line 91 / 151):
success, or an exception carrying its message text. -/
inductive InsertOutcome where
  | ok
  | fails (msg : String)
deriving Repr, DecidableEq

/-- Modelled from the spec: `database.py` (imported at src/main.py line 10)
is not under src/.  Per spec §6 the store's insert either succeeds — the
record becomes findable in the collection — or fails with an error. -/
def create_document_room (outcome : InsertOutcome) (db : DbStore) (room : Room) :
    Except String DbStore :=
  match outcome with
  | .ok => Except.ok ((db : Option (List Room)).map (fun rooms => rooms ++ [room]))
  | .fails msg => Except.error msg

/-- src/main.py lines 88-97, `_save_room_persistently`: try the persistent
write; on a quota-class error text store the room in the fallback map keyed
by its code; otherwise re-raise. -/
def save_room_persistently (outcome : InsertOutcome) (db : DbStore)
    (fb : FallbackMap) (room : Room) : Except String (DbStore × FallbackMap) :=
  match create_document_room outcome db room with
  | .ok db2 => Except.ok (db2, fb)
  | .error e =>
      if isQuotaErrorMsg e then Except.ok (db, fbInsert fb room.code room)
      else Except.error e

/-- Whether a `find_one` call completes or raises. -/
inductive FindOutcome where
  | completes
  | raises
deriving Repr, DecidableEq

/-- src/main.py lines 100-110, `_find_room`: try the DB first, swallowing any
lookup error; fall through to the fallback map. -/
def find_room (db : DbStore) (fo : FindOutcome) (fb : FallbackMap)
    (code : String) : Option Room :=
  match db, fo with
  | some rooms, .completes =>
      match dbFindOne rooms code with
      | some doc => some doc
      | none => fbGet fb code
  | _, _ => fbGet fb code

/-- src/main.py lines 120-127: the uniqueness check of one generation
attempt.  `lookupRaises` tells whether `find_one` raised on this attempt; a
raised lookup is swallowed and leaves the DB half of the check passing. -/
def attemptUnique (db : DbStore) (lookupRaises : Bool) (fb : FallbackMap)
    (code : String) : Bool :=
  (match db, lookupRaises with
   | some rooms, false => (dbFindOne rooms code).isNone
   | _, _ => true) && (fbGet fb code).isNone

/-- src/main.py lines 117-131: the `for _ in range(10)` generation loop,
started at attempt index `i` with `remaining` attempts left.  Returns the
first code accepted as unique, or `none` when the attempts are exhausted. -/
def findUniqueCode (db : DbStore) (fb : FallbackMap)
    (picks : Nat → Fin 6 → Fin 36) (ff : Nat → Bool) :
    Nat → Nat → Option String
  | _, 0 => none
  | i, r + 1 =>
      let code := generate_code (picks i)
      if attemptUnique db (ff i) fb code then some code
      else findUniqueCode db fb picks ff (i + 1) r

/-- Python `x or default` on an optional int: `None` and `0` are falsy. -/
def pyOrInt (x : Option Int) (d : Int) : Int :=
  match x with
  | none => d
  | some v => if v = 0 then d else v

/-- Python `x or default` on an optional string: `None` and `""` are falsy. -/
def pyOrStr (x : Option String) (d : String) : String :=
  match x with
  | none => d
  | some s => if s = "" then d else s

/-- src/main.py lines 115-135: the body of the `try` block of `create_room`:
generate a unique code (or raise `RuntimeError` after 10 attempts), build the
`Room` (pydantic validation), persist it, and answer with code and scene. -/
def create_room_try (db : DbStore) (fb : FallbackMap)
    (picks : Nat → Fin 6 → Fin 36) (ff : Nat → Bool) (ins : InsertOutcome)
    (payload : CreateRoomRequest) :
    Except String (CreateRoomResponse × DbStore × FallbackMap) :=
  match findUniqueCode db fb picks ff 0 10 with
  | none => Except.error "Failed to generate unique room code"
  | some code =>
      match Room.make code (pyOrStr payload.scene "classroom")
          (pyOrInt payload.max_participants 16) with
      | .error e => Except.error e
      | .ok room =>
          match save_room_persistently ins db fb room with
          | .error e => Except.error e
          | .ok (db2, fb2) => Except.ok (⟨code, room.scene⟩, db2, fb2)

/-- src/main.py lines 113-137, `create_room` (`POST /rooms`): any exception
from the body is caught and re-raised as
`HTTPException(500, f"Create room failed: \x7be\x7d")`. -/
def create_room (db : DbStore) (fb : FallbackMap)
    (picks : Nat → Fin 6 → Fin 36) (ff : Nat → Bool) (ins : InsertOutcome)
    (payload : CreateRoomRequest) :
    Except HTTPError (CreateRoomResponse × DbStore × FallbackMap) :=
  match create_room_try db fb picks ff ins payload with
  | .ok v => Except.ok v
  | .error e => Except.error ⟨500, "Create room failed: " ++ e⟩

/-- src/main.py lines 140-159, `join_room` (`POST /rooms/join`): upper-case
the code, resolve it, 404 when absent; then best-effort participant write
whose failure (`pw = .fails _`) is swallowed (lines 149-153).  The second
component records the participant document written, if any. -/
def join_room (db : DbStore) (fo : FindOutcome) (fb : FallbackMap)
    (pw : InsertOutcome) (payload : JoinRoomRequest) :
    Except HTTPError JoinRoomResponse × Option Participant :=
  let code := pyUpper payload.code
  match find_room db fo fb code with
  | none => (Except.error ⟨404, "Room not found"⟩, none)
  | some doc =>
      let participant : Option Participant :=
        match pw with
        | .ok => some ⟨code, payload.name, false, none⟩
        | .fails _ => none
      (Except.ok ⟨code, doc.scene⟩, participant)

/-- src/main.py lines 162-180, `get_room` (`GET /rooms/{code}`): upper-case
the code, resolve it, 404 when absent, else return the record.  (Lines
170-175 only stringify or drop a Mongo `_id` bookkeeping field; the
documents of this embedding carry no such field.) -/
def get_room (db : DbStore) (fo : FindOutcome) (fb : FallbackMap)
    (code : String) : Except HTTPError Room :=
  match find_room db fo fb (pyUpper code) with
  | none => Except.error ⟨404, "Room not found"⟩
  | some doc => Except.ok doc

/-- Status code of an HTTP-level failure, `none` on success. -/
def resultStatus {α : Type} : Except HTTPError α → Option Nat
  | .error e => some e.status
  | .ok _ => none

/-! Helper lemmas about the embedding. -/

theorem strContains_iff {hay needle : String} :
    strContains hay needle = true ↔ needle.data <:+: hay.data := by
  simp [strContains]

theorem infix_map {α β : Type} (f : α → β) {l₁ l₂ : List α}
    (h : l₁ <:+: l₂) : l₁.map f <:+: l₂.map f := by
  rcases h with ⟨s, t, rfl⟩
  exact ⟨s.map f, t.map f, by simp⟩

theorem strContains_Quota_lower {msg : String}
    (h : strContains msg "Quota" = true) :
    strContains (pyLower msg) "quota" = true := by
  rw [strContains_iff] at h ⊢
  have hmap := infix_map Char.toLower h
  have hq : ("Quota".data.map Char.toLower) = "quota".data := by decide
  rw [hq] at hmap
  exact hmap

theorem isQuotaErrorMsg_iff {msg : String} :
    isQuotaErrorMsg msg = true ↔
      (strContains (pyLower msg) "quota" = true ∨
        strContains msg "Forbidden" = true) := by
  constructor
  · intro h
    simp only [isQuotaErrorMsg, Bool.or_eq_true] at h
    rcases h with (hq | hf) | hl
    · exact Or.inl (strContains_Quota_lower hq)
    · exact Or.inr hf
    · exact Or.inl hl
  · intro h
    simp only [isQuotaErrorMsg, Bool.or_eq_true]
    rcases h with hl | hf
    · exact Or.inr hl
    · exact Or.inl (Or.inr hf)

theorem generate_code_length (p : Fin 6 → Fin 36) :
    (generate_code p).length = 6 := by
  simp [generate_code, String.length]

theorem generate_code_mem (p : Fin 6 → Fin 36) :
    ∀ ch ∈ (generate_code p).data, ch ∈ codeChars := by
  intro ch hch
  simp only [generate_code, List.mem_map] at hch
  rcases hch with ⟨i, _, rfl⟩
  exact List.get_mem codeChars _ _

theorem codeChars_toUpper : ∀ ch ∈ codeChars, ch.toUpper = ch := by decide

theorem generate_code_pyUpper (p : Fin 6 → Fin 36) :
    pyUpper (generate_code p) = generate_code p := by
  have h : (generate_code p).data.map Char.toUpper = (generate_code p).data := by
    rw [List.map_congr_left (fun a ha => codeChars_toUpper a (generate_code_mem p a ha))]
    exact List.map_id _
  exact congrArg String.mk h

theorem findUniqueCode_some {db : DbStore} {fb : FallbackMap}
    {picks : Nat → Fin 6 → Fin 36} {ff : Nat → Bool} {i r : Nat} {c : String}
    (h : findUniqueCode db fb picks ff i r = some c) :
    ∃ j, i ≤ j ∧ j < i + r ∧ c = generate_code (picks j) ∧
      attemptUnique db (ff j) fb c = true := by
  induction r generalizing i with
  | zero => simp [findUniqueCode] at h
  | succ r ih =>
      rw [findUniqueCode] at h
      by_cases hu : attemptUnique db (ff i) fb (generate_code (picks i)) = true
      · rw [if_pos hu] at h
        exact ⟨i, le_refl i, by omega, (Option.some.injEq _ _).mp h ▸ rfl, by
          cases (Option.some.injEq _ _).mp h; exact hu⟩
      · rw [if_neg hu] at h
        rcases ih h with ⟨j, hj1, hj2, hj3, hj4⟩
        exact ⟨j, by omega, by omega, hj3, hj4⟩

theorem findUniqueCode_pyUpper {db : DbStore} {fb : FallbackMap}
    {picks : Nat → Fin 6 → Fin 36} {ff : Nat → Bool} {i r : Nat} {c : String}
    (h : findUniqueCode db fb picks ff i r = some c) : pyUpper c = c := by
  rcases findUniqueCode_some h with ⟨j, _, _, rfl, _⟩
  exact generate_code_pyUpper (picks j)

theorem findUniqueCode_none {db : DbStore} {fb : FallbackMap}
    {picks : Nat → Fin 6 → Fin 36} {ff : Nat → Bool} {i r : Nat}
    (h : ∀ j, i ≤ j → j < i + r →
      attemptUnique db (ff j) fb (generate_code (picks j)) = false) :
    findUniqueCode db fb picks ff i r = none := by
  induction r generalizing i with
  | zero => rfl
  | succ r ih =>
      rw [findUniqueCode]
      have h0 := h i (le_refl i) (by omega)
      rw [if_neg (by simp [h0])]
      exact ih (fun j hj1 hj2 => h j (by omega) (by omega))

theorem attemptUnique_true_elim {db : DbStore} {lr : Bool} {fb : FallbackMap}
    {c : String} (h : attemptUnique db lr fb c = true) :
    fbGet fb c = none ∧
      (∀ rooms, db = some rooms → lr = false → dbFindOne rooms c = none) := by
  simp only [attemptUnique, Bool.and_eq_true, Option.isNone_iff_eq_none] at h
  refine ⟨h.2, fun rooms hdb hlr => ?_⟩
  subst hdb; subst hlr
  simpa [Option.isNone_iff_eq_none] using h.1

theorem attemptUnique_false_of {db : DbStore} {lr : Bool} {fb : FallbackMap}
    {c : String}
    (h : (fbGet fb c).isSome = true ∨
      (lr = false ∧ ∃ rooms, db = some rooms ∧ (dbFindOne rooms c).isSome = true)) :
    attemptUnique db lr fb c = false := by
  rcases h with hfb | ⟨hlr, rooms, hdb, hdbf⟩
  · rcases hx : fbGet fb c with _ | v
    · rw [hx] at hfb
      simp at hfb
    · simp [attemptUnique, hx]
  · subst hlr; subst hdb
    rcases hx : dbFindOne rooms c with _ | r
    · rw [hx] at hdbf
      simp at hdbf
    · simp [attemptUnique, hx]

theorem Room.make_ok {code scene : String} {m : Int} (h1 : 1 ≤ m) (h2 : m ≤ 64) :
    Room.make code scene m = Except.ok ⟨code, scene, true, m⟩ := by
  rw [Room.make, if_neg (by omega)]

theorem Room.make_err {code scene : String} {m : Int} (h : m < 1 ∨ 64 < m) :
    Room.make code scene m = Except.error "ValidationError: max_participants" := by
  rw [Room.make, if_pos h]

theorem create_room_ok_elim {db : DbStore} {fb : FallbackMap}
    {picks : Nat → Fin 6 → Fin 36} {ff : Nat → Bool} {ins : InsertOutcome}
    {payload : CreateRoomRequest} {resp : CreateRoomResponse} {db2 : DbStore}
    {fb2 : FallbackMap}
    (h : create_room db fb picks ff ins payload = Except.ok (resp, db2, fb2)) :
    findUniqueCode db fb picks ff 0 10 = some resp.code := by
  rcases hfind : findUniqueCode db fb picks ff 0 10 with _ | c
  · simp [create_room, create_room_try, hfind] at h
  · simp only [create_room, create_room_try, hfind] at h
    rcases hmk : Room.make c (pyOrStr payload.scene "classroom")
        (pyOrInt payload.max_participants 16) with e | room
    · simp [hmk] at h
    · simp only [hmk] at h
      rcases hsv : save_room_persistently ins db fb room with e | p
      · simp [hsv] at h
      · rcases p with ⟨dbx, fbx⟩
        simp only [hsv, Except.ok.injEq, Prod.mk.injEq] at h
        obtain ⟨h1, -, -⟩ := h
        subst h1
        rfl

theorem fbGet_fbInsert (fb : FallbackMap) (k : String) (v : Room) :
    fbGet (fbInsert fb k v) k = some v := by
  simp [fbGet, fbInsert]

theorem Room.make_elim {c s : String} {m : Int} {room : Room}
    (h : Room.make c s m = Except.ok room) : room = ⟨c, s, true, m⟩ := by
  rw [Room.make] at h
  split at h
  · exact absurd h (by simp)
  · exact ((Except.ok.injEq _ _).mp h).symm

theorem codeChars_range :
    ∀ ch ∈ codeChars, ('A' ≤ ch ∧ ch ≤ 'Z') ∨ ('0' ≤ ch ∧ ch ≤ '9') := by decide

/-- Code of the response of a successful `create_room` run, `none` on
failure. -/
def respCodeOf :
    Except HTTPError (CreateRoomResponse × DbStore × FallbackMap) → Option String
  | .ok (r, _, _) => some r.code
  | .error _ => none

/-! Claim theorems. -/

/-- C2, counterexample: the error text "forbidden" (lower case) contains
"forbidden" case-insensitively — the spec's classifier matches it — yet
`_save_room_persistently` propagates the error instead of storing the room
in the fallback map, because src/main.py line 94 checks the exact-case
substring "Forbidden" and only lower-cases the text for the "quota" check. -/
theorem claim_C2_counterexample :
    spec_quota_classifier "forbidden" = true ∧
    save_room_persistently (.fails "forbidden") none []
        ⟨"ABC123", "classroom", true, 16⟩ = Except.error "forbidden" := by
  constructor
  · decide
  · decide

/-- C2, amended: `_save_room_persistently` absorbs an insert error into the
fallback map exactly when the error text contains "quota" case-insensitively
or contains the exact-case substring "Forbidden"; an error containing
neither (for example "forbidden" in lower case, when "quota" is absent)
propagates to the caller. -/
theorem claim_C2_thm (msg : String) (db : DbStore) (fb : FallbackMap)
    (room : Room) :
    (strContains (pyLower msg) "quota" = true ∨ strContains msg "Forbidden" = true →
      save_room_persistently (.fails msg) db fb room =
        Except.ok (db, fbInsert fb room.code room)) ∧
    (strContains (pyLower msg) "quota" = false ∧ strContains msg "Forbidden" = false →
      save_room_persistently (.fails msg) db fb room = Except.error msg) := by
  constructor
  · intro h
    have hq : isQuotaErrorMsg msg = true := isQuotaErrorMsg_iff.mpr h
    simp [save_room_persistently, create_document_room, hq]
  · rintro ⟨h1, h2⟩
    cases hx : isQuotaErrorMsg msg with
    | true =>
        rcases isQuotaErrorMsg_iff.mp hx with h | h
        · rw [h1] at h
          exact Bool.noConfusion h
        · rw [h2] at h
          exact Bool.noConfusion h
    | false =>
        simp [save_room_persistently, create_document_room, hx]

/-- C2, witness: a "QUOTA exceeded" insert error is absorbed and the room
lands in the fallback map. -/
theorem claim_C2_witness :
    save_room_persistently (.fails "QUOTA exceeded") none []
        ⟨"ABC123", "classroom", true, 16⟩ =
      Except.ok (none, fbInsert [] "ABC123" ⟨"ABC123", "classroom", true, 16⟩) :=
  (claim_C2_thm "QUOTA exceeded" none []
      ⟨"ABC123", "classroom", true, 16⟩).1 (Or.inl (by decide))

/-- C7: the outcome and response body of `join_room` do not depend on the
participant write: the response is the same under any two write outcomes;
when the code resolves to a room the response is success with the
upper-cased code and that room's scene; when it resolves to no room the
response is a 404 "Room not found" — in both cases whatever the
participant-write outcome. -/
theorem claim_C7_thm (db : DbStore) (fo : FindOutcome) (fb : FallbackMap)
    (payload : JoinRoomRequest) (pw pw2 : InsertOutcome) :
    (join_room db fo fb pw payload).1 = (join_room db fo fb pw2 payload).1 ∧
    (∀ doc, find_room db fo fb (pyUpper payload.code) = some doc →
      (join_room db fo fb pw payload).1 =
        Except.ok ⟨pyUpper payload.code, doc.scene⟩) ∧
    (find_room db fo fb (pyUpper payload.code) = none →
      (join_room db fo fb pw payload).1 = Except.error ⟨404, "Room not found"⟩) := by
  refine ⟨?_, ?_, ?_⟩
  · rcases hf : find_room db fo fb (pyUpper payload.code) with _ | doc <;>
      simp [join_room, hf]
  · intro doc hf
    simp [join_room, hf]
  · intro hf
    simp [join_room, hf]

/-- C7, witness: joining room "ABC123" (stored in the fallback map) via the
lower-case code succeeds with the room's scene, and the response is the same
when the participant write fails. -/
theorem claim_C7_witness :
    (join_room none .completes [("ABC123", ⟨"ABC123", "space", true, 4⟩)] .ok
        ⟨"abc123", none⟩).1 = Except.ok ⟨"ABC123", "space"⟩ ∧
    (join_room none .completes [("ABC123", ⟨"ABC123", "space", true, 4⟩)] .ok
        ⟨"abc123", none⟩).1 =
      (join_room none .completes [("ABC123", ⟨"ABC123", "space", true, 4⟩)]
          (.fails "db down") ⟨"abc123", none⟩).1 := by
  have h := claim_C7_thm none .completes
      [("ABC123", ⟨"ABC123", "space", true, 4⟩)] ⟨"abc123", none⟩ .ok
      (.fails "db down")
  exact ⟨h.2.1 ⟨"ABC123", "space", true, 4⟩ (by decide), h.1⟩

/-- C8: room lookup is case-insensitive at the API boundary: `get_room`
returns the same result on any two codes with the same upper-casing, and a
room stored under code `C` (in the persistent store or in the fallback map)
is returned by `get_room` applied to any string that upper-cases to `C`. -/
theorem claim_C8_thm (db : DbStore) (fo : FindOutcome) (fb : FallbackMap)
    (s t : String) (h : pyUpper s = pyUpper t) :
    get_room db fo fb s = get_room db fo fb t ∧
    (∀ r : Room, pyUpper s = r.code →
      get_room (some [r]) .completes fb s = Except.ok r ∧
      get_room none fo ((r.code, r) :: fb) s = Except.ok r) := by
  constructor
  · rw [get_room, get_room, h]
  · intro r hr
    constructor
    · rw [get_room, hr]
      simp [find_room, dbFindOne]
    · rw [get_room, hr]
      cases fo <;> simp [find_room, fbGet]

/-- C8, witness: with "ABC123" the stored code, `get_room "abc123"` returns
the stored record and agrees with `get_room "ABC123"`. -/
theorem claim_C8_witness :
    get_room (some [⟨"ABC123", "space", true, 4⟩]) .completes [] "abc123" =
      Except.ok ⟨"ABC123", "space", true, 4⟩ ∧
    get_room (some [⟨"ABC123", "space", true, 4⟩]) .completes [] "abc123" =
      get_room (some [⟨"ABC123", "space", true, 4⟩]) .completes [] "ABC123" := by
  have h := claim_C8_thm (some [⟨"ABC123", "space", true, 4⟩]) .completes []
      "abc123" "ABC123" (by decide)
  exact ⟨(h.2 ⟨"ABC123", "space", true, 4⟩ (by decide)).1, h.1⟩

/-- C1: when the persistent write during `create_room` fails with a
quota-class error, `create_room` still succeeds and leaves the persistent
store untouched, the room sits in the fallback map under its code, it is
resolvable afterwards through `_find_room` and `get_room` by that code
(whatever the later lookup outcome), and the `/test` endpoint's
`fallback_active` flag becomes true. -/
theorem claim_C1_thm (db : DbStore) (fb : FallbackMap)
    (picks : Nat → Fin 6 → Fin 36) (ff : Nat → Bool) (msg : String)
    (payload : CreateRoomRequest) (c : String) (room : Room)
    (hmsg : isQuotaErrorMsg msg = true)
    (hgen : findUniqueCode db fb picks ff 0 10 = some c)
    (hroom : Room.make c (pyOrStr payload.scene "classroom")
        (pyOrInt payload.max_participants 16) = Except.ok room)
    (hfresh : ∀ rooms, db = some rooms → dbFindOne rooms c = none) :
    create_room db fb picks ff (.fails msg) payload =
      Except.ok (⟨c, room.scene⟩, db, fbInsert fb c room) ∧
    fbGet (fbInsert fb c room) c = some room ∧
    (∀ fo, find_room db fo (fbInsert fb c room) c = some room) ∧
    (∀ fo, get_room db fo (fbInsert fb c room) c = Except.ok room) ∧
    fallback_active (fbInsert fb c room) = true := by
  have hcode : room.code = c := by rw [Room.make_elim hroom]
  have hfind : ∀ fo, find_room db fo (fbInsert fb c room) c = some room := by
    intro fo
    rcases db with _ | rooms
    · cases fo <;> simp [find_room, fbGet_fbInsert]
    · cases fo
      · simp [find_room, hfresh rooms rfl, fbGet_fbInsert]
      · simp [find_room, fbGet_fbInsert]
  refine ⟨?_, fbGet_fbInsert fb c room, hfind, ?_, ?_⟩
  · simp only [create_room, create_room_try, hgen, hroom, save_room_persistently,
      create_document_room, hmsg, if_pos, hcode]
  · intro fo
    rw [get_room, findUniqueCode_pyUpper hgen, hfind fo]
  · simp [fallback_active, fbInsert]

/-- C1, witness: a "Quota exceeded" write failure on an empty store degrades
to the fallback map, the created room stays resolvable, and the fallback
flag is on. -/
theorem claim_C1_witness :
    create_room (some []) [] (fun _ _ => (0 : Fin 36)) (fun _ => false)
        (.fails "Quota exceeded") ⟨some "space", some 4⟩ =
      Except.ok (⟨"AAAAAA", "space"⟩, some [],
        fbInsert [] "AAAAAA" ⟨"AAAAAA", "space", true, 4⟩) ∧
    get_room (some []) .completes (fbInsert [] "AAAAAA" ⟨"AAAAAA", "space", true, 4⟩)
        "AAAAAA" = Except.ok ⟨"AAAAAA", "space", true, 4⟩ ∧
    fallback_active (fbInsert [] "AAAAAA" ⟨"AAAAAA", "space", true, 4⟩) = true := by
  have h := claim_C1_thm (some []) [] (fun _ _ => (0 : Fin 36)) (fun _ => false)
      "Quota exceeded" ⟨some "space", some 4⟩ "AAAAAA" ⟨"AAAAAA", "space", true, 4⟩
      (by decide) (by decide) (by decide)
      (by intro rooms hr; cases hr; rfl)
  exact ⟨h.1, h.2.2.2.1 .completes, h.2.2.2.2⟩

/-- C3, counterexample: a run in which every code-generation attempt
produces a code already present in the persistent store need not fail: with
"AAAAAA" stored persistently, every attempt generating "AAAAAA", and every
uniqueness lookup raising (the `except: pass` at src/main.py lines 124-125),
`create_room` succeeds and returns the colliding code — the store even ends
up with two "AAAAAA" rooms. -/
theorem claim_C3_counterexample :
    generate_code (fun _ => (0 : Fin 36)) = "AAAAAA" ∧
    dbFindOne [⟨"AAAAAA", "classroom", true, 16⟩] "AAAAAA" =
      some ⟨"AAAAAA", "classroom", true, 16⟩ ∧
    create_room (some [⟨"AAAAAA", "classroom", true, 16⟩]) []
        (fun _ _ => (0 : Fin 36)) (fun _ => true) .ok ⟨some "classroom", some 16⟩ =
      Except.ok (⟨"AAAAAA", "classroom"⟩,
        some [⟨"AAAAAA", "classroom", true, 16⟩, ⟨"AAAAAA", "classroom", true, 16⟩],
        []) :=
  ⟨by decide, by decide, by decide⟩

/-- C3, amended: when every one of the 10 attempts generates a code the
uniqueness check flags as taken — present in the fallback map, or found in
the persistent store by a lookup that completes — `create_room` stops after
the 10 attempts and fails with the `RuntimeError` of src/main.py line 131,
surfaced as HTTP 500; if instead a store lookup raises, presence in the
persistent store alone does not stop acceptance. -/
theorem claim_C3_thm (db : DbStore) (fb : FallbackMap)
    (picks : Nat → Fin 6 → Fin 36) (ff : Nat → Bool) (ins : InsertOutcome)
    (payload : CreateRoomRequest)
    (h : ∀ j, j < 10 →
      (fbGet fb (generate_code (picks j))).isSome = true ∨
      (ff j = false ∧ ∃ rooms, db = some rooms ∧
        (dbFindOne rooms (generate_code (picks j))).isSome = true)) :
    create_room db fb picks ff ins payload =
      Except.error ⟨500, "Create room failed: Failed to generate unique room code"⟩ := by
  have hnone : findUniqueCode db fb picks ff 0 10 = none :=
    findUniqueCode_none (fun j _ hj2 => attemptUnique_false_of (h j (by omega)))
  simp only [create_room, create_room_try, hnone]
  rfl

/-- C3, witness: with the single generatable code already sitting in the
fallback map, `create_room` answers 500. -/
theorem claim_C3_witness :
    create_room none [("AAAAAA", ⟨"AAAAAA", "classroom", true, 16⟩)]
        (fun _ _ => (0 : Fin 36)) (fun _ => false) .ok ⟨some "classroom", some 16⟩ =
      Except.error ⟨500, "Create room failed: Failed to generate unique room code"⟩ :=
  claim_C3_thm none [("AAAAAA", ⟨"AAAAAA", "classroom", true, 16⟩)]
    (fun _ _ => (0 : Fin 36)) (fun _ => false) .ok ⟨some "classroom", some 16⟩
    (fun j _ => Or.inl (by
      show (fbGet [("AAAAAA", ⟨"AAAAAA", "classroom", true, 16⟩)]
          (generate_code (fun _ => (0 : Fin 36)))).isSome = true
      decide))

/-- C4, counterexample: the accepted code need not be absent from the
persistent store when the uniqueness lookup raises: with "BBBBBB" already
stored persistently and every lookup raising, `create_room` accepts and
returns "BBBBBB" even though it was present in the store at acceptance
time. -/
theorem claim_C4_counterexample :
    create_room (some [⟨"BBBBBB", "nature", true, 8⟩]) []
        (fun _ _ => (1 : Fin 36)) (fun _ => true) .ok ⟨some "nature", some 8⟩ =
      Except.ok (⟨"BBBBBB", "nature"⟩,
        some [⟨"BBBBBB", "nature", true, 8⟩, ⟨"BBBBBB", "nature", true, 8⟩], []) ∧
    dbFindOne [⟨"BBBBBB", "nature", true, 8⟩] "BBBBBB" =
      some ⟨"BBBBBB", "nature", true, 8⟩ :=
  ⟨by decide, by decide⟩

/-- C4, amended: for every successful `create_room` call the returned code
came from the generator, was absent from the fallback map when accepted, and
was absent from the persistent store provided the uniqueness lookup of the
accepting attempt completed without raising; when that lookup raises the
store check is skipped and the code may collide with the persistent store. -/
theorem claim_C4_thm (db : DbStore) (fb : FallbackMap)
    (picks : Nat → Fin 6 → Fin 36) (ff : Nat → Bool) (ins : InsertOutcome)
    (payload : CreateRoomRequest) (resp : CreateRoomResponse) (db2 : DbStore)
    (fb2 : FallbackMap)
    (h : create_room db fb picks ff ins payload = Except.ok (resp, db2, fb2)) :
    ∃ j, resp.code = generate_code (picks j) ∧
      fbGet fb resp.code = none ∧
      (∀ rooms, db = some rooms → ff j = false →
        dbFindOne rooms resp.code = none) := by
  rcases findUniqueCode_some (create_room_ok_elim h) with ⟨j, _, _, hc, hu⟩
  rcases attemptUnique_true_elim hu with ⟨h1, h2⟩
  exact ⟨j, hc, h1, h2⟩

/-- C4, witness: a successful run on the empty stores returns the
generator's code, absent from the fallback map. -/
theorem claim_C4_witness :
    ("AAAAAA" : String) = generate_code (fun _ => (0 : Fin 36)) ∧
    fbGet [] "AAAAAA" = none := by
  obtain ⟨j, hj1, hj2, -⟩ := claim_C4_thm none [] (fun _ _ => (0 : Fin 36))
      (fun _ => false) .ok ⟨some "classroom", some 16⟩ ⟨"AAAAAA", "classroom"⟩
      none [] (by decide)
  exact ⟨hj1, hj2⟩

/-- C5, counterexample: a payload with `max_participants = 100` (outside
[1,64]) passes the request model — `CreateRoomRequest` carries no range
bound — and is rejected only when the `Room` model is built, inside the
`try` of `create_room`; the failure reaches the caller as HTTP 500, a
server error, not a 4xx client error (499 < 500). -/
theorem claim_C5_counterexample :
    create_room none [] (fun _ _ => (0 : Fin 36)) (fun _ => false) .ok
        ⟨some "classroom", some 100⟩ =
      Except.error ⟨500, "Create room failed: ValidationError: max_participants"⟩ ∧
    resultStatus (create_room none [] (fun _ _ => (0 : Fin 36)) (fun _ => false) .ok
        ⟨some "classroom", some 100⟩) = some 500 ∧
    (499 : Nat) < 500 :=
  ⟨by decide, by decide, by decide⟩

/-- C5, amended: `create_room` does reject a (non-zero) `max_participants`
outside [1,64] and stores nothing, but the rejection happens after the code
generation loop — when the `Room` model is validated — and is surfaced by
the request boundary as HTTP 500 with the validation text, not as a
client-error status. -/
theorem claim_C5_thm (db : DbStore) (fb : FallbackMap)
    (picks : Nat → Fin 6 → Fin 36) (ff : Nat → Bool) (ins : InsertOutcome)
    (sc : Option String) (m : Int) (c : String)
    (hm0 : m ≠ 0) (hm : m < 1 ∨ 64 < m)
    (hgen : findUniqueCode db fb picks ff 0 10 = some c) :
    create_room db fb picks ff ins ⟨sc, some m⟩ =
      Except.error ⟨500, "Create room failed: ValidationError: max_participants"⟩ := by
  have hint : pyOrInt (some m) 16 = m := by simp [pyOrInt, hm0]
  have hmk := @Room.make_err c (pyOrStr sc "classroom") m hm
  simp only [create_room, create_room_try, hgen, hint, hmk]
  rfl

/-- C5, witness: `max_participants = 100` yields the 500 validation
failure. -/
theorem claim_C5_witness :
    create_room none [] (fun _ _ => (1 : Fin 36)) (fun _ => false) .ok
        ⟨some "space", some 100⟩ =
      Except.error ⟨500, "Create room failed: ValidationError: max_participants"⟩ :=
  claim_C5_thm none [] (fun _ _ => (1 : Fin 36)) (fun _ => false) .ok
    (some "space") 100 "BBBBBB" (by decide) (by decide) (by decide)

/-- C6, counterexample: the request boundary of `create_room` does not
truncate the diagnostic text: a 100-character internal error message is
forwarded in full — the 120-character detail embeds it verbatim and exceeds
the 80-character cap the program uses elsewhere (`/test`,
src/main.py line 54). -/
theorem claim_C6_counterexample :
    create_room none [] (fun _ _ => (0 : Fin 36)) (fun _ => false)
        (.fails ⟨List.replicate 100 'x'⟩) ⟨some "classroom", some 16⟩ =
      Except.error ⟨500, "Create room failed: " ++ ⟨List.replicate 100 'x'⟩⟩ ∧
    ("Create room failed: " ++ (⟨List.replicate 100 'x'⟩ : String)).length = 120 ∧
    strContains ("Create room failed: " ++ ⟨List.replicate 100 'x'⟩)
        ⟨List.replicate 100 'x'⟩ = true ∧
    ¬("Create room failed: " ++ (⟨List.replicate 100 'x'⟩ : String)).length ≤ 80 := by
  refine ⟨?_, ?_, ?_, ?_⟩ <;> · set_option maxRecDepth 8000 in decide

/-- C6, amended: an unexpected error caught at the `create_room` request
boundary is reported as HTTP 500 whose detail is the fixed prefix followed
by the full, untruncated error text — the detail grows with the message
(length 20 + the message's length); no length cap is applied at the
boundary. -/
theorem claim_C6_thm (db : DbStore) (fb : FallbackMap)
    (picks : Nat → Fin 6 → Fin 36) (ff : Nat → Bool)
    (payload : CreateRoomRequest) (msg c : String) (room : Room)
    (hgen : findUniqueCode db fb picks ff 0 10 = some c)
    (hroom : Room.make c (pyOrStr payload.scene "classroom")
        (pyOrInt payload.max_participants 16) = Except.ok room)
    (hmsg : isQuotaErrorMsg msg = false) :
    create_room db fb picks ff (.fails msg) payload =
      Except.error ⟨500, "Create room failed: " ++ msg⟩ ∧
    ("Create room failed: " ++ msg).length = 20 + msg.length := by
  constructor
  · simp [create_room, create_room_try, hgen, hroom, save_room_persistently,
      create_document_room, hmsg]
  · rw [String.length_append]
    have h20 : ("Create room failed: " : String).length = 20 := by decide
    rw [h20]

/-- C6, witness: a "boom" insert failure surfaces as 500 with the full text
appended. -/
theorem claim_C6_witness :
    create_room none [] (fun _ _ => (0 : Fin 36)) (fun _ => false) (.fails "boom")
        ⟨some "classroom", some 16⟩ =
      Except.error ⟨500, "Create room failed: boom"⟩ ∧
    ("Create room failed: boom" : String).length = 20 + ("boom" : String).length := by
  have h := claim_C6_thm none [] (fun _ _ => (0 : Fin 36)) (fun _ => false)
      ⟨some "classroom", some 16⟩ "boom" "AAAAAA" ⟨"AAAAAA", "classroom", true, 16⟩
      (by decide) (by decide) (by decide)
  exact ⟨h.1, h.2⟩

/-- C9: for every `max_participants` in [1,64] and any scene, a
`create_room` run that reaches the storage write — a code was accepted by
the generation loop — and whose write succeeds or quota-fails into the
fallback, succeeds; the returned code is the accepted one: 6 characters
long, each an upper-case ASCII letter or digit. -/
theorem claim_C9_thm (db : DbStore) (fb : FallbackMap)
    (picks : Nat → Fin 6 → Fin 36) (ff : Nat → Bool) (sc : Option String)
    (m : Int) (ins : InsertOutcome) (c : String)
    (hm : 1 ≤ m ∧ m ≤ 64)
    (hins : ins = .ok ∨ ∃ msg, ins = .fails msg ∧ isQuotaErrorMsg msg = true)
    (hgen : findUniqueCode db fb picks ff 0 10 = some c) :
    respCodeOf (create_room db fb picks ff ins ⟨sc, some m⟩) = some c ∧
    c.length = 6 ∧
    (∀ ch ∈ c.data, ('A' ≤ ch ∧ ch ≤ 'Z') ∨ ('0' ≤ ch ∧ ch ≤ '9')) := by
  obtain ⟨j, -, -, rfl, -⟩ := findUniqueCode_some hgen
  refine ⟨?_, generate_code_length _,
    fun ch hch => codeChars_range ch (generate_code_mem _ ch hch)⟩
  have hm0 : m ≠ 0 := by omega
  have hint : pyOrInt (some m) 16 = m := by simp [pyOrInt, hm0]
  have hroom := @Room.make_ok (generate_code (picks j))
    (pyOrStr sc "classroom") m hm.1 hm.2
  rcases hins with rfl | ⟨msg, rfl, hq⟩
  · simp only [create_room, create_room_try, hgen, hint, hroom,
      save_room_persistently, create_document_room, respCodeOf]
  · simp only [create_room, create_room_try, hgen, hint, hroom,
      save_room_persistently, create_document_room, hq, if_pos, respCodeOf]

/-- C9, witness: a concrete valid run returns the 6-character code
"AAAAAA". -/
theorem claim_C9_witness :
    respCodeOf (create_room none [] (fun _ _ => (0 : Fin 36)) (fun _ => false) .ok
        ⟨some "nature", some 32⟩) = some "AAAAAA" ∧
    ("AAAAAA" : String).length = 6 := by
  have h := claim_C9_thm none [] (fun _ _ => (0 : Fin 36)) (fun _ => false)
      (some "nature") 32 .ok "AAAAAA" (by decide) (Or.inl rfl) (by decide)
  exact ⟨h.1, h.2.1⟩

/-- C10: falsy payload values are silently replaced by defaults rather than
rejected: with `max_participants = 0` the created room has
`max_participants = 16` (the request is not rejected as out of range), and
with `scene = ""` the created room and the response have scene
"classroom". -/
theorem claim_C10_thm (rooms : List Room) (fb : FallbackMap)
    (picks : Nat → Fin 6 → Fin 36) (ff : Nat → Bool) (c : String)
    (hgen : findUniqueCode (some rooms) fb picks ff 0 10 = some c) :
    (∀ sc : Option String,
      create_room (some rooms) fb picks ff .ok ⟨sc, some 0⟩ =
        Except.ok (⟨c, pyOrStr sc "classroom"⟩,
          some (rooms ++ [⟨c, pyOrStr sc "classroom", true, 16⟩]), fb)) ∧
    create_room (some rooms) fb picks ff .ok ⟨some "", some 64⟩ =
      Except.ok (⟨c, "classroom"⟩, some (rooms ++ [⟨c, "classroom", true, 64⟩]), fb) := by
  constructor
  · intro sc
    have hrm : Room.make c (pyOrStr sc "classroom") (pyOrInt (some 0) 16) =
        Except.ok ⟨c, pyOrStr sc "classroom", true, 16⟩ :=
      Room.make_ok (by decide) (by decide)
    simp [create_room, create_room_try, hgen, hrm, save_room_persistently,
      create_document_room]
  · have hrm : Room.make c (pyOrStr (some "") "classroom") (pyOrInt (some 64) 16) =
        Except.ok ⟨c, "classroom", true, 64⟩ := by
      have h1 : pyOrStr (some "") "classroom" = "classroom" := rfl
      have h2 : pyOrInt (some 64) 16 = (64 : Int) := by norm_num [pyOrInt]
      rw [h1, h2]
      exact Room.make_ok (by decide) (by decide)
    simp [create_room, create_room_try, hgen, hrm, save_room_persistently,
      create_document_room]

/-- C10, witness: the payload with `scene = ""` and `max_participants = 0`
creates a "classroom" room with `max_participants = 16`. -/
theorem claim_C10_witness :
    create_room (some []) [] (fun _ _ => (0 : Fin 36)) (fun _ => false) .ok
        ⟨some "", some 0⟩ =
      Except.ok (⟨"AAAAAA", "classroom"⟩,
        some [⟨"AAAAAA", "classroom", true, 16⟩], []) := by
  have h := claim_C10_thm [] [] (fun _ _ => (0 : Fin 36)) (fun _ => false)
      "AAAAAA" (by decide)
  exact h.1 (some "")

end AvatarMeet
